import Mathlib

/-!
Verification of the ai-blame CLI (capture-to-commit attribution pipeline).

This development shallowly embeds the two source files `src/cli/copy.rs`
and `src/cli/mod.rs`.  File-system state, git configuration and the notes
store are modelled as explicit in-memory state that each operation threads
through; printing is modelled by returning the list of printed lines.
Components that live outside the two embedded files (the notes store in
`crate::storage::notes`, the capture hook in `crate::capture`) are modelled
from the specification and marked as such in their doc comments.
-/

set_option maxRecDepth 100000

namespace AiBlame

/-! ## Byte-level string machinery

Rust slices strings by byte index (`&args.source[..8.min(args.source.len())]`
in `copy.rs`), which panics when the cut falls inside a multi-byte UTF-8
character.  We model the UTF-8 byte representation of a string explicitly. -/

/-- UTF-8 encoding of a single character, as the list of its byte values
(mirrors what `str::as_bytes` exposes in Rust). -/
def charUtf8 (c : Char) : List Nat :=
  let n := c.toNat
  if n < 0x80 then [n]
  else if n < 0x800 then [0xC0 + n / 64, 0x80 + n % 64]
  else if n < 0x10000 then [0xE0 + n / 4096, 0x80 + (n / 64) % 64, 0x80 + n % 64]
  else [0xF0 + n / 262144, 0x80 + (n / 4096) % 64, 0x80 + (n / 64) % 64, 0x80 + n % 64]

/-- The UTF-8 byte representation of a string. -/
def utf8Bytes (s : String) : List Nat :=
  s.data.foldr (fun c r => charUtf8 c ++ r) []

/-- Rust `str::is_char_boundary` on a byte list: index 0 and the end of the
string are boundaries; an interior index is a boundary iff its byte is not a
UTF-8 continuation byte (`b as i8 >= -0x40`, i.e. `b < 0x80 ∨ 0xC0 ≤ b`). -/
def isCharBoundary (s : List Nat) (i : Nat) : Bool :=
  i == 0 ||
    match s.get? i with
    | none => i == s.length
    | some b => decide (b < 0x80) || decide (0xC0 ≤ b)

/-- The short-SHA display truncation of `copy.rs` line 36/37:
`&s[..8.min(s.len())]` returns the first `min 8 (byte length)` bytes, and
panics (modelled by `none`) when that index is not a character boundary. -/
def shortSha (s : List Nat) : Option (List Nat) :=
  let j := min 8 s.length
  if isCharBoundary s j then some (s.take j) else none

/-! ## Character-list helpers (substring search, line splitting)

These model Rust `str::contains`, `str::trim_end`, `str::starts_with` and
line-wise inspection of the installed hook scripts. -/

/-- `isPrefixOfB p l` is true iff `p` is a prefix of `l`. -/
def isPrefixOfB : List Char → List Char → Bool
  | [], _ => true
  | _ :: _, [] => false
  | a :: as, b :: bs => a == b && isPrefixOfB as bs

/-- `containsSeq hay pat`: does `hay` contain `pat` as a contiguous
subsequence?  Models Rust `str::contains` on the character level. -/
def containsSeq : List Char → List Char → Bool
  | [], pat => pat.isEmpty
  | c :: rest, pat => isPrefixOfB pat (c :: rest) || containsSeq rest pat

/-- Rust `str::contains` with a string pattern. -/
def strContains (s pat : String) : Bool :=
  containsSeq s.toList pat.toList

/-- `endsWithB l pat`: does `l` end with `pat`? -/
def endsWithB (l pat : List Char) : Bool :=
  isPrefixOfB pat.reverse l.reverse

/-- Trailing-whitespace trim (Rust `str::trim_end`, restricted to the ASCII
whitespace characters Lean's `Char.isWhitespace` recognises). -/
def trimEndChars (cs : List Char) : List Char :=
  (cs.reverse.dropWhile Char.isWhitespace).reverse

/-- Split a character list at newline characters, keeping empty lines. -/
def splitLinesAux : List Char → List Char → List (List Char)
  | [], acc => [acc.reverse]
  | c :: rest, acc =>
    if c == '\n' then acc.reverse :: splitLinesAux rest []
    else splitLinesAux rest (c :: acc)

/-- The lines of a character list. -/
def splitLines (cs : List Char) : List (List Char) :=
  splitLinesAux cs []

/-! ## Data model

`AttributionRecord` and its parts follow §3 of the specification: the
storage layer (`crate::storage`) is not among the embedded source files,
so its data is modelled from the spec. -/

/-- Contributor kind of a line attribution (AI tool or human). -/
inductive ContributorKind where
  | ai
  | human
deriving DecidableEq, Repr

/-- Modelled from the spec: a `LineAttribution` is a contiguous line range
within one file tagged with contributor kind, tool, session and prompt
reference (§3, and the persisted layout of §6). -/
structure LineAttribution where
  path : String
  startLine : Nat
  endLine : Nat
  kind : ContributorKind
  tool : String
  sessionId : String
  promptDigest : String
deriving DecidableEq, Repr

/-- Modelled from the spec: an `AttributionRecord` is the full set of
`LineAttribution` entries for one commit (§3); the commit identity is the
key under which the notes store holds the record. -/
structure AttributionRecord where
  entries : List LineAttribution
deriving DecidableEq, Repr

/-- Modelled from the spec: a captured edit event (§3 `CaptureEvent`):
file path, edited line range (end-exclusive), tool, prompt, session,
timestamp. -/
structure CaptureEvent where
  file : String
  startLine : Nat
  endLine : Nat
  tool : String
  prompt : String
  session : String
  timestamp : Nat
deriving DecidableEq, Repr

/-- Modelled from the spec: the pending (unfinalized) capture state
(§3 `PendingState`): events keyed by one session. -/
structure PendingState where
  sessionId : String
  events : List CaptureEvent
deriving DecidableEq, Repr

/-- The mutable repository-side state every CLI operation threads through:
the post-commit hook file (content and permission mode), the multi-valued
git config keys `remote.origin.push` / `remote.origin.fetch`, the notes
store (commit oid ↦ attribution record) and the pending capture state. -/
structure RepoState where
  hookFile : Option String
  hookMode : Option Nat
  configPush : List String
  configFetch : List String
  notes : List (Nat × AttributionRecord)
  pending : Option PendingState
deriving DecidableEq, Repr

/-- The ambient environment of one CLI invocation: whether `.` is inside a
discoverable git repository, whether that repository has a working
directory, which revision strings resolve (and peel) to a commit oid
(`repo.revparse_single(rev)?.peel_to_commit()?.id()`), whether
`NotesStore::new` succeeds and whether `CaptureHook::new` succeeds. -/
structure Env where
  discovered : Bool
  hasWorkdir : Bool
  resolve : List (String × Nat)
  storeOk : Bool
  captureHookOk : Bool
deriving DecidableEq, Repr

/-! ## Notes store (modelled from the spec, §4.3) -/

/-- Modelled from the spec: `hasRecord(commit) -> bool` of the Notes
Repository (§4.3); `crate::storage::notes::NotesStore::has_attribution`. -/
def has_attribution (notes : List (Nat × AttributionRecord)) (oid : Nat) : Bool :=
  (notes.lookup oid).isSome

/-- Modelled from the spec: `write(commit, record)` replaces any existing
record for that commit wholesale (§4.3). -/
def write_attribution (notes : List (Nat × AttributionRecord)) (oid : Nat)
    (r : AttributionRecord) : List (Nat × AttributionRecord) :=
  (oid, r) :: notes.filter (fun p => p.1 != oid)

/-- Modelled from the spec: `copy(source, target)` reads the source record
and writes an identical copy addressed to the target commit (§4.3);
`crate::storage::notes::NotesStore::copy_attribution`. -/
def copy_attribution (notes : List (Nat × AttributionRecord)) (source target : Nat) :
    List (Nat × AttributionRecord) :=
  match notes.lookup source with
  | some r => write_attribution notes target r
  | none => notes

/-! ## The copy operation (`src/cli/copy.rs`) -/

/-- `CopyNotesArgs` of `copy.rs`. -/
structure CopyNotesArgs where
  source : String
  target : String
  dry_run : Bool
deriving DecidableEq, Repr

/-- A line printed by the copy operation.  Printing is an I/O shim, so the
printed lines are modelled structurally; the short fields carry the raw
byte prefixes produced by the byte-index slice of `copy.rs` lines 36-37. -/
inductive CopyMsg where
  | noAttribution (source : String)
  | wouldCopy (sourceShort targetShort : List Nat)
  | copied (sourceShort targetShort : List Nat)
deriving DecidableEq, Repr

/-- Outcome of the copy operation: a Rust panic (the byte slice hitting a
non-boundary index), an `Err` propagated via `?`, or `Ok` together with the
printed lines. -/
inductive CopyOutcome where
  | panicked
  | error (msg : String)
  | ok (msgs : List CopyMsg)
deriving DecidableEq, Repr

/-- Is the outcome an `Err`? -/
def CopyOutcome.isError : CopyOutcome → Bool
  | .error _ => true
  | _ => false

/-- Is the outcome `Ok`? -/
def CopyOutcome.isOk : CopyOutcome → Bool
  | .ok _ => true
  | _ => false

/-- `run` of `src/cli/copy.rs`, line by line: discover the repository,
resolve both revisions, open the notes store, return `Ok` with a message
when the source has no attribution, compute both short display SHAs (a
byte slice that can panic), then either report a dry run or copy the
record.  Error texts of external failures (git discovery, revparse, store
opening) are modelled by fixed strings. -/
def copyRun (env : Env) (args : CopyNotesArgs) (st : RepoState) :
    CopyOutcome × RepoState :=
  if !env.discovered then (.error "Not in a git repository", st) else
  match env.resolve.lookup args.source with
  | none => (.error ("unresolvable revision " ++ args.source), st)
  | some source_oid =>
  match env.resolve.lookup args.target with
  | none => (.error ("unresolvable revision " ++ args.target), st)
  | some target_oid =>
  if !env.storeOk then (.error "failed to open notes store", st) else
  if !(has_attribution st.notes source_oid) then
    (.ok [CopyMsg.noAttribution args.source], st)
  else
    match shortSha (utf8Bytes args.source), shortSha (utf8Bytes args.target) with
    | some source_short, some target_short =>
      if args.dry_run then
        (.ok [CopyMsg.wouldCopy source_short target_short], st)
      else
        (.ok [CopyMsg.copied source_short target_short],
         { st with notes := copy_attribution st.notes source_oid target_oid })
    | _, _ => (.panicked, st)

/-! ## The other CLI operations (`src/cli/mod.rs`) -/

/-- Outcome of an operation of `mod.rs`: an `Err` propagated via `?`, or
`Ok` together with the printed lines. -/
inductive Outcome where
  | error (msg : String)
  | ok (msgs : List String)
deriving DecidableEq, Repr

/-- Is the outcome an `Err`? -/
def Outcome.isError : Outcome → Bool
  | .error _ => true
  | .ok _ => false

/-- Is the outcome `Ok`? -/
def Outcome.isOk : Outcome → Bool
  | .ok _ => true
  | .error _ => false

/-- `CaptureArgs` of `mod.rs`: `--stdin`, `--file`, `--tool`, `--prompt`. -/
structure CaptureArgs where
  stdin : Bool
  file : Option String
  tool : Option String
  prompt : Option String
deriving DecidableEq, Repr

/-- `run_capture` of `mod.rs` lines 91-97: with `--stdin` it delegates to
`hook::run_capture_hook()` (outside the embedded files, its outcome is a
parameter); without `--stdin` it bails with an error, regardless of the
direct `--file`/`--tool`/`--prompt` arguments. -/
def run_capture (hookOutcome : Except String Unit) (args : CaptureArgs) :
    Except String Unit :=
  if args.stdin then hookOutcome
  else Except.error "Capture requires --stdin flag for hook input"

/-- The aggregate status the capture hook reports (`has_pending`,
`session_id`, `file_count`, `line_count`). -/
structure StatusReport where
  has_pending : Bool
  session_id : Option String
  file_count : Nat
  line_count : Nat
deriving DecidableEq, Repr

/-- Modelled from the spec: the number of distinct files in the pending
state (§3: `PendingState` exposes a file count for status reporting). -/
def fileCount (p : PendingState) : Nat :=
  ((p.events.map (fun e => e.file)).dedup).length

/-- Modelled from the spec: the total number of pending lines (§3: ranges
are end-exclusive, so each event contributes `endLine - startLine`). -/
def lineCount (p : PendingState) : Nat :=
  (p.events.map (fun e => e.endLine - e.startLine)).sum

/-- Modelled from the spec: `CaptureHook::status` of `crate::capture`
(not among the embedded files): a read-only summary of the pending state
(§6 status query surface: whether pending state exists, its session id,
file count and line count). -/
def captureStatus (pending : Option PendingState) : StatusReport :=
  match pending with
  | none => { has_pending := false, session_id := none, file_count := 0, line_count := 0 }
  | some p => { has_pending := true, session_id := some p.sessionId,
                file_count := fileCount p, line_count := lineCount p }

/-- `run_status` of `mod.rs` lines 103-122: discover the repository, get
its working directory, open the capture hook state, read the status and
print it.  `status.session_id.as_deref().unwrap_or("unknown")` becomes
`getD "unknown"`. -/
def run_status (env : Env) (st : RepoState) : Outcome × RepoState :=
  if !env.discovered then (.error "repository discovery failed", st) else
  if !env.hasWorkdir then (.error "No working directory", st) else
  if !env.captureHookOk then (.error "failed to open capture hook state", st) else
  let status := captureStatus st.pending
  if status.has_pending then
    (.ok ["Pending AI attribution:",
          "  Session: " ++ status.session_id.getD "unknown",
          "  Files: " ++ toString status.file_count,
          "  Lines: " ++ toString status.line_count,
          "\nRun \x27git commit\x27 to finalize attribution."], st)
  else
    (.ok ["No pending AI attribution."], st)

/-- `run_clear` of `mod.rs` lines 124-135: discover, get the working
directory, open the capture hook state and discard the pending state
(`clear_pending`, modelled from the spec §4.1: `clear()` discards without
returning). -/
def run_clear (env : Env) (st : RepoState) : Outcome × RepoState :=
  if !env.discovered then (.error "repository discovery failed", st) else
  if !env.hasWorkdir then (.error "No working directory", st) else
  if !env.captureHookOk then (.error "failed to open capture hook state", st) else
  (.ok ["Cleared pending AI attribution."], { st with pending := none })

/-- The fresh post-commit hook script `run_init` writes when no hook file
exists (`mod.rs` lines 166-175), verbatim. -/
def newHookScript : String :=
  "#!/bin/bash\n# ai-blame post-commit hook\n# Attaches AI attribution notes to the commit\n\nif command -v ai-blame &> /dev/null; then\n    ai-blame post-commit 2>/dev/null || true\nelif [[ -x \"$HOME/.cargo/bin/ai-blame\" ]]; then\n    \"$HOME/.cargo/bin/ai-blame\" post-commit 2>/dev/null || true\nfi\n"

/-- The fragment `run_init` appends to a pre-existing hook file that does
not mention ai-blame (`mod.rs` lines 157-159): the format string
`"{}\n\n# ai-blame post-commit hook\n..."` minus the trimmed existing
content. -/
def hookFragment : String :=
  "\n\n# ai-blame post-commit hook\nif command -v ai-blame &> /dev/null; then\n    ai-blame post-commit 2>/dev/null || true\nfi\n"

/-- The full content written in the append branch of `run_init`:
the existing content with trailing whitespace trimmed, then the fragment. -/
def appendedHook (content : String) : String :=
  String.mk (trimEndChars content.toList) ++ hookFragment

/-- `git_config_get_string` on a multi-valued key returns the last-set
value; the configured-check of `configure_git_notes` reads through it. -/
def configGet (vals : List String) : Option String :=
  vals.getLast?

/-- `configure_git_notes` of `mod.rs` lines 197-239: for each of the push
and fetch refspecs, check whether the currently read config value contains
"ai-blame" (`.map(|v| v.contains("ai-blame")).unwrap_or(false)`); if not,
append the refspec as a new entry (`set_multivar(name, "^$", value)`). -/
def configure_git_notes (st : RepoState) : RepoState × List String :=
  let pushConfigured :=
    match configGet st.configPush with
    | some v => strContains v "ai-blame"
    | none => false
  let (st1, msg1) :=
    if pushConfigured then
      (st, "✓ Git already configured to push ai-blame notes.")
    else
      ({ st with configPush := st.configPush ++ ["refs/notes/ai-blame"] },
       "✓ Configured git to push ai-blame notes automatically.")
  let fetchConfigured :=
    match configGet st1.configFetch with
    | some v => strContains v "ai-blame"
    | none => false
  let (st2, msg2) :=
    if fetchConfigured then
      (st1, "✓ Git already configured to fetch ai-blame notes.")
    else
      ({ st1 with configFetch := st1.configFetch ++ ["+refs/notes/ai-blame:refs/notes/ai-blame"] },
       "✓ Configured git to fetch ai-blame notes automatically.")
  (st2, [msg1, msg2])

/-- `run_init` of `mod.rs` lines 137-194: discover the repository, get the
working directory, ensure the hooks directory (a no-op on the modelled
state), then: if a hook file exists and mentions ai-blame, leave it alone;
if it exists without ai-blame, append the fragment (permissions are not
touched in this branch); otherwise write the fresh script and make it
executable (0o755).  Finally configure the notes refspecs and print the
closing messages. -/
def run_init (env : Env) (st : RepoState) : Outcome × RepoState :=
  if !env.discovered then (.error "Not in a git repository", st) else
  if !env.hasWorkdir then (.error "No working directory", st) else
  let (st1, msg1) :=
    match st.hookFile with
    | some content =>
      if strContains content "ai-blame" then
        (st, "✓ ai-blame post-commit hook already installed.")
      else
        ({ st with hookFile := some (appendedHook content) },
         "✓ Added ai-blame to existing post-commit hook.")
    | none =>
      ({ st with hookFile := some newHookScript, hookMode := some 0o755 },
       "✓ Installed ai-blame post-commit hook.")
  let (st2, msgs2) := configure_git_notes st1
  (.ok (msg1 :: msgs2 ++
        ["\nSetup complete! AI attribution will be tracked for commits in this repo.",
         "Notes will be automatically pushed/fetched with \x27git push\x27 and \x27git fetch\x27.",
         "\nMake sure Claude Code hooks are configured in ~/.claude/settings.json"]),
   st2)

/-- A line of a hook script that invokes the ai-blame finalizer: it
mentions `post-commit` and is not a comment line. -/
def isInvocationLine (l : List Char) : Bool :=
  containsSeq l "post-commit".toList &&
    !(isPrefixOfB "#".toList (l.dropWhile Char.isWhitespace))

/-- An invocation line that discards stderr and cannot fail the script:
it contains `2>/dev/null` and ends in `|| true`. -/
def swallowsFailure (l : List Char) : Bool :=
  containsSeq l "2>/dev/null".toList && endsWithB l "|| true".toList

/-! ## Theorems -/

/-- C2: a missing attribution record is never an error for the copy
operation: when the repository is discovered, both revisions resolve, the
store opens and the source commit has no attribution record, `run` prints
a message naming the source commit and returns `Ok` without touching any
state. -/
theorem copy_missing_source_reported_and_ok
    (env : Env) (args : CopyNotesArgs) (st : RepoState) (oidS oidT : Nat)
    (hd : env.discovered = true)
    (hs : env.resolve.lookup args.source = some oidS)
    (ht : env.resolve.lookup args.target = some oidT)
    (hstore : env.storeOk = true)
    (hrec : has_attribution st.notes oidS = false) :
    copyRun env args st = (.ok [CopyMsg.noAttribution args.source], st) := by
  simp [copyRun, hd, hs, ht, hstore, hrec]

/-- Witness for `copy_missing_source_reported_and_ok` at a concrete
environment and state. -/
theorem copy_missing_source_reported_and_ok_witness :
    copyRun
        { discovered := true, hasWorkdir := true, resolve := [("abc123", 1), ("def456", 2)],
          storeOk := true, captureHookOk := true }
        { source := "abc123", target := "def456", dry_run := false }
        { hookFile := none, hookMode := none, configPush := [], configFetch := [],
          notes := [], pending := none } =
      (.ok [CopyMsg.noAttribution "abc123"],
       { hookFile := none, hookMode := none, configPush := [], configFetch := [],
         notes := [], pending := none }) := by
  exact copy_missing_source_reported_and_ok _ _ _ 1 2 (by decide) (by decide) (by decide)
    (by decide) (by decide)

/-- C1 counterexample: with a discovered repository, resolvable revisions
and a source commit that has no attribution record, `run` does NOT return
an error — it returns `Ok` (contradicting the claim that `copy` fails in
this situation). -/
theorem copy_missing_source_is_not_error_cex :
    has_attribution ([] : List (Nat × AttributionRecord)) 1 = false ∧
    ((copyRun
        { discovered := true, hasWorkdir := true, resolve := [("abc123", 1), ("def456", 2)],
          storeOk := true, captureHookOk := true }
        { source := "abc123", target := "def456", dry_run := false }
        { hookFile := none, hookMode := none, configPush := [], configFetch := [],
          notes := [], pending := none }).1).isError = false := by
  decide

/-- C1 (amended): when the source commit has no attribution record, `run`
prints a message naming the source commit, returns `Ok` (not an error),
and performs no write to the notes store or any other state. -/
theorem copy_missing_source_ok_and_no_write
    (env : Env) (args : CopyNotesArgs) (st : RepoState) (oidS oidT : Nat)
    (hd : env.discovered = true)
    (hs : env.resolve.lookup args.source = some oidS)
    (ht : env.resolve.lookup args.target = some oidT)
    (hstore : env.storeOk = true)
    (hrec : has_attribution st.notes oidS = false) :
    (copyRun env args st).1 = CopyOutcome.ok [CopyMsg.noAttribution args.source] ∧
    ((copyRun env args st).1).isError = false ∧
    (copyRun env args st).2 = st := by
  simp [copyRun, hd, hs, ht, hstore, hrec, CopyOutcome.isError]

/-- Witness for `copy_missing_source_ok_and_no_write` at a concrete
environment and state (the target commit has an existing record, which is
left untouched). -/
theorem copy_missing_source_ok_and_no_write_witness :
    (copyRun
        { discovered := true, hasWorkdir := true, resolve := [("abc123", 1), ("def456", 2)],
          storeOk := true, captureHookOk := true }
        { source := "abc123", target := "def456", dry_run := false }
        { hookFile := none, hookMode := none, configPush := [], configFetch := [],
          notes := [(2, { entries := [] })], pending := none }).1 =
      CopyOutcome.ok [CopyMsg.noAttribution "abc123"] ∧
    ((copyRun
        { discovered := true, hasWorkdir := true, resolve := [("abc123", 1), ("def456", 2)],
          storeOk := true, captureHookOk := true }
        { source := "abc123", target := "def456", dry_run := false }
        { hookFile := none, hookMode := none, configPush := [], configFetch := [],
          notes := [(2, { entries := [] })], pending := none }).1).isError = false ∧
    (copyRun
        { discovered := true, hasWorkdir := true, resolve := [("abc123", 1), ("def456", 2)],
          storeOk := true, captureHookOk := true }
        { source := "abc123", target := "def456", dry_run := false }
        { hookFile := none, hookMode := none, configPush := [], configFetch := [],
          notes := [(2, { entries := [] })], pending := none }).2 =
      { hookFile := none, hookMode := none, configPush := [], configFetch := [],
        notes := [(2, { entries := [] })], pending := none } := by
  exact copy_missing_source_ok_and_no_write _ _ _ 1 2 (by decide) (by decide) (by decide)
    (by decide) (by decide)

/-- C3: if either revision of the copy operation does not resolve (with
the repository discovered), `run` fails and no state — in particular the
notes mapping — is modified; this holds whether or not the notes store
would open, since both resolutions happen before the store is opened. -/
theorem copy_unresolvable_fails_without_state_change
    (env : Env) (args : CopyNotesArgs) (st : RepoState)
    (hd : env.discovered = true)
    (h : env.resolve.lookup args.source = none ∨ env.resolve.lookup args.target = none) :
    ((copyRun env args st).1).isError = true ∧ (copyRun env args st).2 = st := by
  rcases h with h | h
  · simp [copyRun, hd, h, CopyOutcome.isError]
  · cases hs : env.resolve.lookup args.source with
    | none => simp [copyRun, hd, hs, CopyOutcome.isError]
    | some oidS => simp [copyRun, hd, hs, h, CopyOutcome.isError]

/-- Witness for `copy_unresolvable_fails_without_state_change`: the target
revision does not resolve, the notes store holds a source record, and the
call fails leaving the state unchanged. -/
theorem copy_unresolvable_fails_without_state_change_witness :
    ((copyRun
        { discovered := true, hasWorkdir := true, resolve := [("abc123", 1)],
          storeOk := true, captureHookOk := true }
        { source := "abc123", target := "zzzz", dry_run := false }
        { hookFile := none, hookMode := none, configPush := [], configFetch := [],
          notes := [(1, { entries := [] })], pending := none }).1).isError = true ∧
    (copyRun
        { discovered := true, hasWorkdir := true, resolve := [("abc123", 1)],
          storeOk := true, captureHookOk := true }
        { source := "abc123", target := "zzzz", dry_run := false }
        { hookFile := none, hookMode := none, configPush := [], configFetch := [],
          notes := [(1, { entries := [] })], pending := none }).2 =
      { hookFile := none, hookMode := none, configPush := [], configFetch := [],
        notes := [(1, { entries := [] })], pending := none } := by
  exact copy_unresolvable_fails_without_state_change _ _ _ (by decide) (Or.inr (by decide))

/-- C4: the capture operation rejects direct command-line arguments —
`run_capture` invoked without `--stdin` bails with an error even when
`--file`, `--tool` and `--prompt` are all supplied, for every possible
hook outcome (evaluating the code at the failing input of the claim). -/
theorem capture_direct_args_rejected :
    run_capture (Except.ok ())
        { stdin := false, file := some "src/main.rs", tool := some "claude",
          prompt := some "fix the bug" } =
      Except.error "Capture requires --stdin flag for hook input" ∧
    ∀ (hookOutcome : Except String Unit) (f t p : Option String),
      run_capture hookOutcome { stdin := false, file := f, tool := t, prompt := p } =
        Except.error "Capture requires --stdin flag for hook input" := by
  exact ⟨rfl, fun _ _ _ _ => rfl⟩

/-- C5: when the working directory has no discoverable git repository,
each of the copy, init, status and clear operations fails with an error
and leaves every piece of state (hook file, permissions, git config,
staging, notes) exactly as it was. -/
theorem not_a_repository_no_partial_action
    (env : Env) (st : RepoState) (args : CopyNotesArgs)
    (h : env.discovered = false) :
    ((copyRun env args st).1).isError = true ∧ (copyRun env args st).2 = st ∧
    ((run_init env st).1).isError = true ∧ (run_init env st).2 = st ∧
    ((run_status env st).1).isError = true ∧ (run_status env st).2 = st ∧
    ((run_clear env st).1).isError = true ∧ (run_clear env st).2 = st := by
  simp [copyRun, run_init, run_status, run_clear, h,
        CopyOutcome.isError, Outcome.isError]

/-- Witness for `not_a_repository_no_partial_action` at a concrete
undiscovered environment and a nonempty state. -/
theorem not_a_repository_no_partial_action_witness :
    ((copyRun
        { discovered := false, hasWorkdir := true, resolve := [("abc123", 1)],
          storeOk := true, captureHookOk := true }
        { source := "abc123", target := "def456", dry_run := false }
        { hookFile := some "#!/bin/sh", hookMode := some 0o755, configPush := ["x"],
          configFetch := ["y"], notes := [(1, { entries := [] })],
          pending := some { sessionId := "s1", events := [] } }).1).isError = true ∧
    (copyRun
        { discovered := false, hasWorkdir := true, resolve := [("abc123", 1)],
          storeOk := true, captureHookOk := true }
        { source := "abc123", target := "def456", dry_run := false }
        { hookFile := some "#!/bin/sh", hookMode := some 0o755, configPush := ["x"],
          configFetch := ["y"], notes := [(1, { entries := [] })],
          pending := some { sessionId := "s1", events := [] } }).2 =
      { hookFile := some "#!/bin/sh", hookMode := some 0o755, configPush := ["x"],
        configFetch := ["y"], notes := [(1, { entries := [] })],
        pending := some { sessionId := "s1", events := [] } } ∧
    ((run_init
        { discovered := false, hasWorkdir := true, resolve := [("abc123", 1)],
          storeOk := true, captureHookOk := true }
        { hookFile := some "#!/bin/sh", hookMode := some 0o755, configPush := ["x"],
          configFetch := ["y"], notes := [(1, { entries := [] })],
          pending := some { sessionId := "s1", events := [] } }).1).isError = true ∧
    (run_init
        { discovered := false, hasWorkdir := true, resolve := [("abc123", 1)],
          storeOk := true, captureHookOk := true }
        { hookFile := some "#!/bin/sh", hookMode := some 0o755, configPush := ["x"],
          configFetch := ["y"], notes := [(1, { entries := [] })],
          pending := some { sessionId := "s1", events := [] } }).2 =
      { hookFile := some "#!/bin/sh", hookMode := some 0o755, configPush := ["x"],
        configFetch := ["y"], notes := [(1, { entries := [] })],
        pending := some { sessionId := "s1", events := [] } } ∧
    ((run_status
        { discovered := false, hasWorkdir := true, resolve := [("abc123", 1)],
          storeOk := true, captureHookOk := true }
        { hookFile := some "#!/bin/sh", hookMode := some 0o755, configPush := ["x"],
          configFetch := ["y"], notes := [(1, { entries := [] })],
          pending := some { sessionId := "s1", events := [] } }).1).isError = true ∧
    (run_status
        { discovered := false, hasWorkdir := true, resolve := [("abc123", 1)],
          storeOk := true, captureHookOk := true }
        { hookFile := some "#!/bin/sh", hookMode := some 0o755, configPush := ["x"],
          configFetch := ["y"], notes := [(1, { entries := [] })],
          pending := some { sessionId := "s1", events := [] } }).2 =
      { hookFile := some "#!/bin/sh", hookMode := some 0o755, configPush := ["x"],
        configFetch := ["y"], notes := [(1, { entries := [] })],
        pending := some { sessionId := "s1", events := [] } } ∧
    ((run_clear
        { discovered := false, hasWorkdir := true, resolve := [("abc123", 1)],
          storeOk := true, captureHookOk := true }
        { hookFile := some "#!/bin/sh", hookMode := some 0o755, configPush := ["x"],
          configFetch := ["y"], notes := [(1, { entries := [] })],
          pending := some { sessionId := "s1", events := [] } }).1).isError = true ∧
    (run_clear
        { discovered := false, hasWorkdir := true, resolve := [("abc123", 1)],
          storeOk := true, captureHookOk := true }
        { hookFile := some "#!/bin/sh", hookMode := some 0o755, configPush := ["x"],
          configFetch := ["y"], notes := [(1, { entries := [] })],
          pending := some { sessionId := "s1", events := [] } }).2 =
      { hookFile := some "#!/bin/sh", hookMode := some 0o755, configPush := ["x"],
        configFetch := ["y"], notes := [(1, { entries := [] })],
        pending := some { sessionId := "s1", events := [] } } := by
  exact not_a_repository_no_partial_action _ _ _ (by decide)

/-- C6: both the fresh post-commit hook script and the fragment appended
to a pre-existing hook contain at least one ai-blame invocation line, and
every invocation line in them discards stderr (`2>/dev/null`) and ends in
`|| true`, so no finalizer failure can propagate out of those lines. -/
theorem hook_script_never_blocks_commit :
    (splitLines newHookScript.toList).any isInvocationLine = true ∧
    ((splitLines newHookScript.toList).all
        fun l => !(isInvocationLine l) || swallowsFailure l) = true ∧
    (splitLines hookFragment.toList).any isInvocationLine = true ∧
    ((splitLines hookFragment.toList).all
        fun l => !(isInvocationLine l) || swallowsFailure l) = true := by
  decide

/-- C7: `run_status` never modifies any state (staging, notes, hook,
config), and when discovery, the working directory and the capture hook
state all succeed it reports exactly the status fields: with a pending
state, its session id, file count and line count; without one, that no
attribution is pending. -/
theorem status_read_only_reports_fields (env : Env) (st : RepoState) :
    (run_status env st).2 = st ∧
    (env.discovered = true → env.hasWorkdir = true → env.captureHookOk = true →
      ((∀ p, st.pending = some p →
          (run_status env st).1 =
            .ok ["Pending AI attribution:",
                 "  Session: " ++ p.sessionId,
                 "  Files: " ++ toString (fileCount p),
                 "  Lines: " ++ toString (lineCount p),
                 "\nRun \x27git commit\x27 to finalize attribution."]) ∧
       (st.pending = none → (run_status env st).1 = .ok ["No pending AI attribution."]))) := by
  constructor
  · cases hd : env.discovered <;> cases hw : env.hasWorkdir <;>
      cases hc : env.captureHookOk <;> cases hp : st.pending <;>
      simp [run_status, hd, hw, hc, hp, captureStatus]
  · intro hd hw hc
    constructor
    · intro p hp
      simp [run_status, hd, hw, hc, hp, captureStatus]
    · intro hp
      simp [run_status, hd, hw, hc, hp, captureStatus]

/-- Witness for `status_read_only_reports_fields` at a concrete state with
one pending event spanning three lines. -/
theorem status_read_only_reports_fields_witness :
    (run_status
        { discovered := true, hasWorkdir := true, resolve := [], storeOk := true,
          captureHookOk := true }
        { hookFile := none, hookMode := none, configPush := [], configFetch := [],
          notes := [],
          pending := some { sessionId := "sess-1",
                            events := [{ file := "a.rs", startLine := 1, endLine := 4,
                                         tool := "claude", prompt := "p", session := "sess-1",
                                         timestamp := 0 }] } }).2 =
      { hookFile := none, hookMode := none, configPush := [], configFetch := [],
        notes := [],
        pending := some { sessionId := "sess-1",
                          events := [{ file := "a.rs", startLine := 1, endLine := 4,
                                       tool := "claude", prompt := "p", session := "sess-1",
                                       timestamp := 0 }] } } ∧
    (run_status
        { discovered := true, hasWorkdir := true, resolve := [], storeOk := true,
          captureHookOk := true }
        { hookFile := none, hookMode := none, configPush := [], configFetch := [],
          notes := [],
          pending := some { sessionId := "sess-1",
                            events := [{ file := "a.rs", startLine := 1, endLine := 4,
                                         tool := "claude", prompt := "p", session := "sess-1",
                                         timestamp := 0 }] } }).1 =
      .ok ["Pending AI attribution:", "  Session: sess-1", "  Files: 1", "  Lines: 3",
           "\nRun \x27git commit\x27 to finalize attribution."] := by
  refine ⟨(status_read_only_reports_fields _ _).1, ?_⟩
  exact ((status_read_only_reports_fields _ _).2 rfl rfl rfl).1
    { sessionId := "sess-1",
      events := [{ file := "a.rs", startLine := 1, endLine := 4, tool := "claude",
                   prompt := "p", session := "sess-1", timestamp := 0 }] } rfl

/-- C8: the short-SHA byte slice is total exactly under the UTF-8 boundary
precondition: when byte index `min 8 (length)` falls on a character
boundary the slice yields the first `min 8 (length)` bytes; every
all-ASCII byte string satisfies that precondition; and the precondition is
necessary — on the UTF-8 bytes of a string whose ninth byte is a
continuation byte, the slice panics (`none`). -/
theorem short_sha_total_on_char_boundary (s : List Nat) :
    (isCharBoundary s (min 8 s.length) = true →
      shortSha s = some (s.take (min 8 s.length))) ∧
    ((∀ b ∈ s, b < 128) → shortSha s = some (s.take (min 8 s.length))) ∧
    shortSha [97, 195, 128, 195, 128, 195, 128, 195, 128] = none := by
  refine ⟨?_, ?_, by decide⟩
  · intro h
    simp [shortSha, h]
  · intro h
    have hb : isCharBoundary s (min 8 s.length) = true := by
      unfold isCharBoundary
      cases hg : s.get? (min 8 s.length) with
      | none =>
        have hlen : s.length ≤ min 8 s.length := List.get?_eq_none.mp hg
        have heq : min 8 s.length = s.length :=
          le_antisymm (min_le_right _ _) hlen
        simp [heq]
      | some b =>
        have hbmem : b ∈ s := List.get?_mem hg
        have hlt : decide (b < 128) = true := decide_eq_true (h b hbmem)
        simp [hlt]
    simp [shortSha, hb]

/-- Witness for `short_sha_total_on_char_boundary`: an ASCII string shorter
than eight bytes is returned whole, and a ten-byte ASCII string is cut to
its first eight bytes. -/
theorem short_sha_total_on_char_boundary_witness :
    shortSha [97, 98, 99] = some [97, 98, 99] ∧
    shortSha [48, 49, 50, 51, 52, 53, 54, 55, 56, 57] =
      some [48, 49, 50, 51, 52, 53, 54, 55] := by
  exact ⟨(short_sha_total_on_char_boundary [97, 98, 99]).1 (by decide),
         (short_sha_total_on_char_boundary [48, 49, 50, 51, 52, 53, 54, 55, 56, 57]).2.1
           (by decide)⟩

/-- C9 counterexample: with `dry_run` set, a resolvable source commit that
has an attribution record, and a source argument string whose byte index 8
falls inside a multi-byte character, `run` does not return success — the
short-SHA byte slice panics (contradicting the claim that every such
invocation returns success). -/
theorem copy_dry_run_success_cex :
    ({ source := "aÀÀÀÀ", target := "bbbb", dry_run := true } : CopyNotesArgs).dry_run = true ∧
    has_attribution [(1, ({ entries := [] } : AttributionRecord))] 1 = true ∧
    (copyRun
        { discovered := true, hasWorkdir := true, resolve := [("aÀÀÀÀ", 1), ("bbbb", 2)],
          storeOk := true, captureHookOk := true }
        { source := "aÀÀÀÀ", target := "bbbb", dry_run := true }
        { hookFile := none, hookMode := none, configPush := [], configFetch := [],
          notes := [(1, { entries := [] })], pending := none }).1 = CopyOutcome.panicked ∧
    ((copyRun
        { discovered := true, hasWorkdir := true, resolve := [("aÀÀÀÀ", 1), ("bbbb", 2)],
          storeOk := true, captureHookOk := true }
        { source := "aÀÀÀÀ", target := "bbbb", dry_run := true }
        { hookFile := none, hookMode := none, configPush := [], configFetch := [],
          notes := [(1, { entries := [] })], pending := none }).1).isOk = false := by
  decide

/-- C9 (amended): a dry run changes no persistent state: with the source
record present and the display truncation of both argument strings on a
character boundary (always the case for ASCII revision strings), `run`
returns success after printing what would be copied, `copy_attribution` is
never invoked, and the state — in particular both commits' attribution
records — is unchanged. -/
theorem copy_dry_run_no_state_change
    (env : Env) (args : CopyNotesArgs) (st : RepoState)
    (oidS oidT : Nat) (ss ts : List Nat)
    (hd : env.discovered = true)
    (hs : env.resolve.lookup args.source = some oidS)
    (ht : env.resolve.lookup args.target = some oidT)
    (hstore : env.storeOk = true)
    (hrec : has_attribution st.notes oidS = true)
    (hss : shortSha (utf8Bytes args.source) = some ss)
    (hts : shortSha (utf8Bytes args.target) = some ts)
    (hdry : args.dry_run = true) :
    copyRun env args st = (.ok [CopyMsg.wouldCopy ss ts], st) := by
  simp [copyRun, hd, hs, ht, hstore, hrec, hss, hts, hdry]

/-- Witness for `copy_dry_run_no_state_change` at concrete ASCII
arguments, with records on both the source and the target commit. -/
theorem copy_dry_run_no_state_change_witness :
    copyRun
        { discovered := true, hasWorkdir := true,
          resolve := [("abc123def456", 1), ("fedcba987654", 2)],
          storeOk := true, captureHookOk := true }
        { source := "abc123def456", target := "fedcba987654", dry_run := true }
        { hookFile := none, hookMode := none, configPush := [], configFetch := [],
          notes := [(1, { entries := [] }), (2, { entries := [] })], pending := none } =
      (.ok [CopyMsg.wouldCopy (utf8Bytes "abc123de") (utf8Bytes "fedcba98")],
       { hookFile := none, hookMode := none, configPush := [], configFetch := [],
         notes := [(1, { entries := [] }), (2, { entries := [] })], pending := none }) := by
  exact copy_dry_run_no_state_change _ _ _ 1 2 (utf8Bytes "abc123de") (utf8Bytes "fedcba98")
    (by decide) (by decide) (by decide) (by decide) (by decide) (by decide) (by decide)
    (by decide)

/-- C10: init is idempotent once installed and configured: when the hook
file already contains "ai-blame" and the configured (last-read) values of
both the push and fetch refspec keys mention ai-blame, `run_init` succeeds
and leaves the entire state — hook content, hook permissions and git
configuration — exactly as it was. -/
theorem init_idempotent_when_configured
    (env : Env) (st : RepoState) (content vPush vFetch : String)
    (hd : env.discovered = true)
    (hw : env.hasWorkdir = true)
    (hhook : st.hookFile = some content)
    (hc : strContains content "ai-blame" = true)
    (hp : configGet st.configPush = some vPush)
    (hpc : strContains vPush "ai-blame" = true)
    (hf : configGet st.configFetch = some vFetch)
    (hfc : strContains vFetch "ai-blame" = true) :
    (run_init env st).2 = st ∧ ((run_init env st).1).isOk = true := by
  simp [run_init, configure_git_notes, hd, hw, hhook, hc, hp, hpc, hf, hfc, Outcome.isOk]

/-- Witness for `init_idempotent_when_configured`: a second `run_init` on
a state holding the freshly installed hook script and both refspecs leaves
the state identical. -/
theorem init_idempotent_when_configured_witness :
    (run_init
        { discovered := true, hasWorkdir := true, resolve := [], storeOk := true,
          captureHookOk := true }
        { hookFile := some newHookScript, hookMode := some 0o755,
          configPush := ["refs/notes/ai-blame"],
          configFetch := ["+refs/notes/ai-blame:refs/notes/ai-blame"],
          notes := [], pending := none }).2 =
      { hookFile := some newHookScript, hookMode := some 0o755,
        configPush := ["refs/notes/ai-blame"],
        configFetch := ["+refs/notes/ai-blame:refs/notes/ai-blame"],
        notes := [], pending := none } ∧
    ((run_init
        { discovered := true, hasWorkdir := true, resolve := [], storeOk := true,
          captureHookOk := true }
        { hookFile := some newHookScript, hookMode := some 0o755,
          configPush := ["refs/notes/ai-blame"],
          configFetch := ["+refs/notes/ai-blame:refs/notes/ai-blame"],
          notes := [], pending := none }).1).isOk = true := by
  exact init_idempotent_when_configured _ _ newHookScript "refs/notes/ai-blame"
    "+refs/notes/ai-blame:refs/notes/ai-blame" (by decide) (by decide) (by decide)
    (by decide) (by decide) (by decide) (by decide) (by decide)

end AiBlame
